/-
Verification of the token-dispenser client library against its
natural-language specification.

The development shallowly embeds the two Python variants of the client:
- namespace `TDC`    : `token_dispenser_client/token_dispenser_client.py`
- namespace `TDCLib` : `token_dispenser_client_lib/token_dispenser_client.py`

External collaborators (the SSM parameter store, the lambda invocation
transport, and Python's `json.loads`) are modelled as explicit oracle
parameters: the store answering the i-th prefix-query call, a point-lookup
store, a JSON-validity predicate and a single invocation outcome.  The
Python `while True` pagination loop is embedded with an explicit fuel
parameter: `none` means the loop did not finish within the given fuel.
Python exceptions are modelled with `Except` (`PyErr`), and Python's
dynamically typed `minimum_alive_secs` argument with `PyNum`
(an `int` or a `float`, the latter carried as a rational; float rendering
and Unicode whitespace beyond ASCII are not modelled, and no claim
depends on them).
-/
import Mathlib

/-! ## String helpers (Python `str` operations used by the source) -/

/-- Boolean test that `pat` begins the list `s` (character lists). -/
def listStartsWith : List Char → List Char → Bool
  | [], _ => true
  | _ :: _, [] => false
  | p :: ps, c :: cs => p == c && listStartsWith ps cs

/-- `strStartsWith s pat`: the string `s` begins with `pat`. -/
def strStartsWith (s pat : String) : Bool :=
  listStartsWith pat.data s.data

/-- Boolean test that `pat` occurs contiguously inside the list `s`. -/
def listContains (pat : List Char) : List Char → Bool
  | [] => listStartsWith pat []
  | c :: cs => listStartsWith pat (c :: cs) || listContains pat cs

/-- `strContains s pat`: the string `pat` occurs contiguously inside `s`. -/
def strContains (s pat : String) : Bool :=
  listContains pat.data s.data

/-- Python's `str.endswith`, embedded over character lists. -/
def pyEndswith (s suf : String) : Bool :=
  listStartsWith suf.data.reverse s.data.reverse

/-- The ASCII whitespace characters stripped by Python's `str.strip()`. -/
def isPyWs (c : Char) : Bool :=
  c == ' ' || c == '\t' || c == '\n' || c == '\r' || c == '\x0b' || c == '\x0c'

/-- Python's `str.strip()` (restricted to ASCII whitespace). -/
def pyStrip (s : String) : String :=
  ⟨((s.data.dropWhile isPyWs).reverse.dropWhile isPyWs).reverse⟩

/-- Truthiness of a Python string: non-empty is truthy. -/
def pyTruthyStr (s : String) : Bool :=
  !(s == "")

/-- Truthiness of an optional Python string: `None` and `''` are falsy. -/
def pyTruthyOptStr : Option String → Bool
  | none => false
  | some s => pyTruthyStr s

/-- The character class `[a-zA-Z0-9]` of the client_id validation regex. -/
def isAlnum (c : Char) : Bool :=
  ('a' ≤ c && c ≤ 'z') || ('A' ≤ c && c ≤ 'Z') || ('0' ≤ c && c ≤ '9')

/-- Python `re.compile(r'^[a-zA-Z0-9]\x7b3,32\x7d$').match(s)` as a Boolean.
Semantics of the anchors: `re.match` anchors at the start, and `$` (without
`re.MULTILINE`) matches at the end of the string or just before a newline
that is the last character.  Hence the regex matches `s` iff for some
`k ∈ [3, 32]` the first `k` characters are alphanumeric and the rest of the
string is empty or a single trailing newline. -/
def patternMatch (s : String) : Bool :=
  let cs := s.data
  (List.range' 3 30).any fun k =>
    decide (k ≤ cs.length) && (cs.take k).all isAlnum &&
      (cs.drop k == [] || cs.drop k == ['\n'])

/-! ## Minimal JSON rendering (`json.dumps` on the dicts the source builds) -/

/-- JSON values appearing in the dicts the source serializes.  String
escaping is not modelled (no string serialized by the source contains a
character needing escapes), and Python float rendering is abstracted. -/
inductive JVal where
  | jstr (s : String)
  | jint (n : Int)
  | jrat (q : Rat)
  | jnull
deriving DecidableEq

def dumpJVal : JVal → String
  | .jstr s => "\"" ++ s ++ "\""
  | .jint n => toString n
  | .jrat q => toString q
  | .jnull => "null"

/-- `json.dumps` of a string-keyed dict with default separators. -/
def jsonDumps (kvs : List (String × JVal)) : String :=
  let items := kvs.map fun kv => "\"" ++ kv.1 ++ "\": " ++ dumpJVal kv.2
  let body := match items with
    | [] => ""
    | x :: xs => xs.foldl (fun a b => a ++ ", " ++ b) x
  "\x7b" ++ body ++ "\x7d"

/-! ## Data model of the dynamic values and collaborators -/

/-- The `minimum_alive_secs` argument: a Python `int` or `float`
(the float carried as a rational number). -/
inductive PyNum where
  | int (n : Int)
  | float (q : Rat)
deriving DecidableEq

/-- Python `isinstance(v, int)`. -/
def PyNum.isinstanceInt : PyNum → Bool
  | .int _ => true
  | .float _ => false

/-- Python `v.is_integer()`: true on ints, and on floats with no
fractional part. -/
def PyNum.is_integer : PyNum → Bool
  | .int _ => true
  | .float q => q.den == 1

/-- The numeric value, for the comparisons `v > 3300` and `v < 0`. -/
def PyNum.toRat : PyNum → Rat
  | .int n => (n : Rat)
  | .float q => q

/-- Python exceptions raised by the embedded code. -/
inductive PyErr where
  | unboundLocal
  | keyError
  | valueError (msg : String)
  | valueErrorList (msgs : List String)
deriving DecidableEq

/-- One response of `ssm.get_parameters_by_path`: a page of (Name, Value)
entries plus an optional continuation token. -/
structure SsmPage where
  parameters : List (String × String)
  nextToken : Option String
deriving DecidableEq

/-- One response of `ssm.get_parameter`: `none` models a response missing
the `Parameter`/`Value` keys (a Python `KeyError` on access). -/
structure SsmPointResp where
  parameterValue : Option String
deriving DecidableEq

/-- One response of `lambda_client.invoke`: the decoded payload text and
whether the out-of-band `FunctionError` field is present. -/
structure InvokeResp where
  payload : String
  functionError : Bool
deriving DecidableEq

/-- Python dict insertion `d[k] = v`: update in place if the key exists
(keeping insertion order), else append. -/
def dictInsert (d : List (String × String)) (k v : String) :
    List (String × String) :=
  if d.any (fun p => p.1 == k) then
    d.map (fun p => if p.1 == k then (k, v) else p)
  else
    d ++ [(k, v)]

/-- Fold a page of entries into the accumulated dict
(the `for param in response.get('Parameters', [])` body). -/
def dictFold (d : List (String × String)) (entries : List (String × String)) :
    List (String × String) :=
  entries.foldl (fun d p => dictInsert d p.1 p.2) d

/-- ssm parameter store default path for TDS ARN. -/
def _DEFAULT_SSM_PATH_ : String := "/service/token-dispenser"

/-! ## Shared pagination loop

Both variants' `get_parameters_by_path` contain the same `while True` loop:
call the store (first without, then with the continuation token), fold the
page's entries into the dict, stop when the response carries no token.
`store i` is the response to the i-th call; `fuel` bounds the unfolding,
`none` meaning the loop did not finish within `fuel` calls (the Python
loop itself has no bound). -/
def getParamsLoop (store : Nat → SsmPage) :
    Nat → Nat → List (String × String) → Option (List (String × String))
  | 0, _, _ => none
  | fuel + 1, idx, acc =>
    let page := store idx
    let acc' := dictFold acc page.parameters
    match page.nextToken with
    | none => some acc'
    | some _ => getParamsLoop store fuel (idx + 1) acc'

/-- `get_parameters_by_path` of both variants (the loop started on an empty
dict at the first call). -/
def get_parameters_by_path (store : Nat → SsmPage) (fuel : Nat) :
    Option (List (String × String)) :=
  getParamsLoop store fuel 0 []

/-- Concatenation of the entries of pages `idx, idx+1, ..., idx+k`. -/
def storeEntries (store : Nat → SsmPage) (idx : Nat) : Nat → List (String × String)
  | 0 => (store idx).parameters
  | k + 1 => (store idx).parameters ++ storeEntries store (idx + 1) k

/-! ## Variant `token_dispenser_client_lib/token_dispenser_client.py` -/

namespace TDCLib

/-- `get_parameter_by_name(name, with_decryption=False)`:
```
if not name.endswith('/'):
    response = ssm.get_parameter(Name=name, WithDecryption=with_decryption)
return response['Parameter']['Value']
```
When `name` ends in `'/'` the assignment is skipped and the `return` reads
the unbound local `response` (an `UnboundLocalError`); a present response
missing the keys raises `KeyError`. -/
def get_parameter_by_name (point : String → SsmPointResp) (name : String) :
    Except PyErr String :=
  if !(pyEndswith name "/") then
    match (point name).parameterValue with
    | some v => .ok v
    | none => .error .keyError
  else
    .error .unboundLocal

/-- `invoke_lambda(input_params_json, lambda_arn)`.  `parse` abstracts
`json.loads` success; `inv` is the single outcome of
`lambda_client.invoke` plus payload read/decode (`.error e` being any
exception raised by the transport, with `e` its text). -/
def invoke_lambda (parse : String → Bool) (inv : Except String InvokeResp)
    (input_params_json : String) (lambda_arn : Option String) : String :=
  if !(pyTruthyOptStr lambda_arn) then
    "Error: lambda_arn not provided"
  else if !(parse input_params_json) then
    "Error: Invalid JSON"
  else
    match inv with
    | .error e => "Error: Lambda invocation failed: " ++ e
    | .ok resp =>
      if resp.functionError then
        "Error: Lambda function error: " ++ resp.payload
      else
        resp.payload

/-- `validate_input(client_id, minimum_alive_secs)` returning the
accumulated error string (note the pattern error overwrites, while the
numeric errors are appended with `'\n '`). -/
def validate_input (client_id : Option String) (m : Option PyNum) : String :=
  let err_msg := ""
  let err_msg :=
    if (match client_id with
        | none => true
        | some s => pyStrip s == "") then
      "Error: client_id is required"
    else err_msg
  let err_msg :=
    if (match client_id with
        | none => false
        | some s => pyTruthyStr s && !(patternMatch s)) then
      "client_id must be between length 3-32 with pattern [a-zA-Z0-9]\x7b3,32\x7d"
    else err_msg
  let err_msg :=
    match m with
    | some v =>
      if !(v.is_integer) then
        err_msg ++ "\n Minimum alive interval must be an integer"
      else err_msg
    | none => err_msg
  let err_msg :=
    match m with
    | some v =>
      if v.is_integer && (decide (v.toRat > 3300) || decide (v.toRat < 0)) then
        err_msg ++ "\n Minimum alive interval must be an integer between 1 and 3300"
      else err_msg
    | none => err_msg
  err_msg

/-- `get_tds_arn(ssm_name)` returning the `(err_msg, tds_arn)` pair.  With
no name it pages through the default namespace and applies the
zero/one/many check; with a name it trusts it as a full parameter name.
The outer `Option` is the pagination fuel artifact; `Except` carries
exceptions propagating out of `get_parameter_by_name`. -/
def get_tds_arn (store : Nat → SsmPage) (point : String → SsmPointResp)
    (fuel : Nat) (ssm_name : Option String) :
    Option (Except PyErr (String × String)) :=
  match ssm_name with
  | none =>
    match get_parameters_by_path store fuel with
    | none => none
    | some params =>
      let size := params.length
      if size < 1 then
        some (.ok ("Not able to find tds arn for: " ++ _DEFAULT_SSM_PATH_, ""))
      else if size > 1 then
        some (.ok ("Found more than one tds arn for: " ++ _DEFAULT_SSM_PATH_, ""))
      else
        some (.ok ("", (params.headD ("", "")).2))
  | some name =>
    match get_parameter_by_name point name with
    | .ok v => some (.ok ("", v))
    | .error e => some (.error e)

/-- `crete_err(err_code, err_msg)`: the JSON error envelope. -/
def crete_err (err_code : Int) (err_msg : String) : String :=
  jsonDumps [("statusCode", .jint err_code), ("body", .jstr err_msg)]

/-- The payload `json.dumps(dict(client_id=..., minimum_alive_secs=...))`
built by `get_token`. -/
def tokenPayload (client_id : Option String) (m : Option PyNum) : String :=
  jsonDumps
    [("client_id", match client_id with | none => .jnull | some s => .jstr s),
     ("minimum_alive_secs",
        match m with
        | none => .jnull
        | some (.int n) => .jint n
        | some (.float q) => .jrat q)]

/-- `get_token(client_id, minimum_alive_secs=300, token_dispenser_arn_ssm_key=None)`:
validate, resolve, invoke, in order, each failing gate returning early. -/
def get_token (store : Nat → SsmPage) (point : String → SsmPointResp)
    (fuel : Nat) (parse : String → Bool) (inv : Except String InvokeResp)
    (client_id : Option String) (m : Option PyNum) (key : Option String) :
    Option (Except PyErr String) :=
  let err_msg := validate_input client_id m
  if !(pyStrip err_msg == "") then
    some (.ok (crete_err 422 err_msg))
  else
    match get_tds_arn store point fuel key with
    | none => none
    | some (.error e) => some (.error e)
    | some (.ok (err, arn)) =>
      if pyTruthyStr err then
        some (.ok (crete_err 500 err))
      else
        some (.ok (invoke_lambda parse inv (tokenPayload client_id m) (some arn)))

/-- The three gates of `get_token`, for the call-trace instrumentation. -/
inductive Gate where
  | validate
  | resolve
  | invoke
deriving DecidableEq

/-- `get_token` instrumented with the list of gates actually entered, in
order.  The result component mirrors `get_token` exactly. -/
def get_tokenT (store : Nat → SsmPage) (point : String → SsmPointResp)
    (fuel : Nat) (parse : String → Bool) (inv : Except String InvokeResp)
    (client_id : Option String) (m : Option PyNum) (key : Option String) :
    Option (Except PyErr String) × List Gate :=
  let err_msg := validate_input client_id m
  if !(pyStrip err_msg == "") then
    (some (.ok (crete_err 422 err_msg)), [.validate])
  else
    match get_tds_arn store point fuel key with
    | none => (none, [.validate, .resolve])
    | some (.error e) => (some (.error e), [.validate, .resolve])
    | some (.ok (err, arn)) =>
      if pyTruthyStr err then
        (some (.ok (crete_err 500 err)), [.validate, .resolve])
      else
        (some (.ok (invoke_lambda parse inv (tokenPayload client_id m) (some arn))),
         [.validate, .resolve, .invoke])

/-- The resolution gate passes: `get_tds_arn` terminated, raised nothing,
and returned a falsy error message. -/
def resolutionOk (store : Nat → SsmPage) (point : String → SsmPointResp)
    (fuel : Nat) (key : Option String) : Bool :=
  match get_tds_arn store point fuel key with
  | some (.ok (err, _)) => !(pyTruthyStr err)
  | _ => false

end TDCLib

/-! ## Variant `token_dispenser_client/token_dispenser_client.py` -/

namespace TDC

/-- `get_parameter_by_name(name)`: as in the lib variant, a trailing-slash
name skips the assignment and reading `response` raises
`UnboundLocalError` (here even the exception handlers re-reading
`response` raise it); missing keys raise `KeyError`, re-raised by the
handler. -/
def get_parameter_by_name (point : String → SsmPointResp) (name : String) :
    Except PyErr String :=
  if !(pyEndswith name "/") then
    match (point name).parameterValue with
    | some v => .ok v
    | none => .error .keyError
  else
    .error .unboundLocal

/-- `invoke_lambda(input_params_json, lambda_arn)` of the client variant:
the invalid-JSON message carries the payload, and a `FunctionError`
response raises a `RuntimeError` that the enclosing handler turns into an
`"Error: Lambda invocation failed: ..."` string wrapping the function
error message. -/
def invoke_lambda (parse : String → Bool) (inv : Except String InvokeResp)
    (input_params_json : String) (lambda_arn : Option String) : String :=
  if !(pyTruthyOptStr lambda_arn) then
    "Error: lambda_arn not provided"
  else if !(parse input_params_json) then
    "Error: Invalid JSON : " ++ input_params_json
  else
    match inv with
    | .error e => "Error: Lambda invocation failed: " ++ e
    | .ok resp =>
      if resp.functionError then
        "Error: Lambda invocation failed: Error: Lambda function error: " ++
          resp.payload
      else
        resp.payload

/-- `validate_input(client_id, minimum_alive_secs)` returning the error
list.  The numeric checks use `isinstance(minimum_alive_secs, int)`: every
float (integral or not) gets the integer error, and the range check runs
on ints only. -/
def validate_input (client_id : Option String) (m : Option PyNum) :
    List String :=
  let err_msgs : List String := []
  let err_msgs :=
    if (match client_id with
        | none => true
        | some s => pyStrip s == "") then
      err_msgs ++ ["Error: client_id is required"]
    else err_msgs
  let err_msgs :=
    if (match client_id with
        | none => false
        | some s => pyTruthyStr s && !(patternMatch s)) then
      err_msgs ++
        ["client_id must be between length 3-32 with pattern [a-zA-Z0-9]\x7b3,32\x7d"]
    else err_msgs
  let err_msgs :=
    match m with
    | some v =>
      if !(v.isinstanceInt) then
        err_msgs ++ ["Minimum alive interval must be an integer"]
      else err_msgs
    | none => err_msgs
  let err_msgs :=
    match m with
    | some (.int n) =>
      if decide (n > 3300) || decide (n < 0) then
        err_msgs ++ ["Minimum alive interval must be an integer between 1 and 3300"]
      else err_msgs
    | _ => err_msgs
  err_msgs

/-- `get_tds_arn(ssm_name)` of the client variant: the zero and many cases
`raise ValueError(...)` instead of returning an error message. -/
def get_tds_arn (store : Nat → SsmPage) (point : String → SsmPointResp)
    (fuel : Nat) (ssm_name : Option String) : Option (Except PyErr String) :=
  match ssm_name with
  | none =>
    match get_parameters_by_path store fuel with
    | none => none
    | some params =>
      let size := params.length
      if size < 1 then
        some (.error (.valueError
          ("Not able to find tds arn for: " ++ _DEFAULT_SSM_PATH_)))
      else if size > 1 then
        some (.error (.valueError
          ("Found more than one tds arn for: " ++ _DEFAULT_SSM_PATH_)))
      else
        some (.ok (params.headD ("", "")).2)
  | some name =>
    match get_parameter_by_name point name with
    | .ok v => some (.ok v)
    | .error e => some (.error e)

/-- `create_err(err_msg)`: the client variant's envelope has a `body`
field only — no status code. -/
def create_err (err_msg : String) : String :=
  jsonDumps [("body", .jstr err_msg)]

/-- `get_token` of the client variant: a non-empty validation list is
raised as `ValueError(err_msgs)`; a `ValueError` from `get_tds_arn` is
caught and returned as `create_err(ve.args[0])`; other exceptions
propagate. -/
def get_token (store : Nat → SsmPage) (point : String → SsmPointResp)
    (fuel : Nat) (parse : String → Bool) (inv : Except String InvokeResp)
    (client_id : Option String) (m : Option PyNum) (key : Option String) :
    Option (Except PyErr String) :=
  let err_msgs := validate_input client_id m
  if err_msgs.length > 0 then
    some (.error (.valueErrorList err_msgs))
  else
    match get_tds_arn store point fuel key with
    | none => none
    | some (.error (.valueError msg)) => some (.ok (create_err msg))
    | some (.error e) => some (.error e)
    | some (.ok arn) =>
      some (.ok (invoke_lambda parse inv
        (TDCLib.tokenPayload client_id m) (some arn)))

end TDC

/-! ## Concrete collaborators used by witnesses and counterexamples -/

/-- A store whose default namespace holds no parameter at all. -/
def storeEmpty : Nat → SsmPage := fun _ => ⟨[], none⟩

/-- A store answering with one page holding two distinctly named entries. -/
def storeTwoOnePage : Nat → SsmPage := fun _ =>
  ⟨[("/service/token-dispenser/a", "arnA"), ("/service/token-dispenser/b", "arnB")],
   none⟩

/-- A store answering with two pages of one distinctly named entry each. -/
def storeTwoPages : Nat → SsmPage := fun i =>
  match i with
  | 0 => ⟨[("/service/token-dispenser/a", "arnA")], some "tok1"⟩
  | _ => ⟨[("/service/token-dispenser/b", "arnB")], none⟩

/-- A store answering with two pages of one entry each, both pages naming
the same parameter. -/
def storeTwoPagesSameName : Nat → SsmPage := fun i =>
  match i with
  | 0 => ⟨[("/service/token-dispenser/a", "arnOld")], some "tok1"⟩
  | _ => ⟨[("/service/token-dispenser/a", "arnNew")], none⟩

/-- A store answering with exactly one entry on one page. -/
def storeOne : Nat → SsmPage := fun _ =>
  ⟨[("/service/token-dispenser/a", "arnA")], none⟩

/-- A misbehaving store that returns a continuation token on every call. -/
def storeAlwaysToken : Nat → SsmPage := fun _ =>
  ⟨[("/service/token-dispenser/x", "v")], some "tok"⟩

/-- A point-lookup store with no usable response. -/
def pointNone : String → SsmPointResp := fun _ => ⟨none⟩

/-- A point-lookup store answering every name with a fixed value. -/
def pointConst : String → SsmPointResp := fun _ => ⟨some "arnPoint"⟩

/-- A `json.loads` oracle accepting every payload. -/
def parseTrue : String → Bool := fun _ => true

/-- A `json.loads` oracle rejecting every payload. -/
def parseFalse : String → Bool := fun _ => false

/-- A successful invocation outcome. -/
def invOk : Except String InvokeResp := .ok ⟨"\x7b\"token\": \"t1\"\x7d", false⟩

/-- A second, distinguishable successful invocation outcome. -/
def invOk2 : Except String InvokeResp := .ok ⟨"other-body", false⟩

/-- An invocation outcome whose transport raised. -/
def invBoom : Except String InvokeResp := .error "boom"

/-! ## Helper lemmas -/

theorem listStartsWith_append (p a b : List Char)
    (h : listStartsWith p a = true) : listStartsWith p (a ++ b) = true := by
  induction p generalizing a with
  | nil => rfl
  | cons c cs ih =>
    cases a with
    | nil => simp [listStartsWith] at h
    | cons d ds =>
      simp only [listStartsWith, Bool.and_eq_true] at h ⊢
      exact ⟨h.1, ih ds h.2⟩

theorem string_data_append (a b : String) : (a ++ b).data = a.data ++ b.data := by
  cases a; cases b; rfl

theorem strStartsWith_append (a b p : String)
    (h : strStartsWith a p = true) : strStartsWith (a ++ b) p = true := by
  unfold strStartsWith at h ⊢
  rw [string_data_append]
  exact listStartsWith_append _ _ _ h

theorem dictFold_append (acc : List (String × String))
    (xs ys : List (String × String)) :
    dictFold acc (xs ++ ys) = dictFold (dictFold acc xs) ys := by
  simp [dictFold, List.foldl_append]

theorem getParamsLoop_accum (store : Nat → SsmPage) :
    ∀ (k fuel idx : Nat) (acc : List (String × String)),
      (∀ j, j < k → ((store (idx + j)).nextToken).isSome = true) →
      (store (idx + k)).nextToken = none →
      k < fuel →
      getParamsLoop store fuel idx acc =
        some (dictFold acc (storeEntries store idx k)) := by
  intro k
  induction k with
  | zero =>
    intro fuel idx acc _ hnone hf
    cases fuel with
    | zero => omega
    | succ f =>
      rw [Nat.add_zero] at hnone
      simp only [getParamsLoop, storeEntries, hnone]
  | succ k ih =>
    intro fuel idx acc hsome hnone hf
    cases fuel with
    | zero => omega
    | succ f =>
      have h0 : ((store idx).nextToken).isSome = true := by
        have := hsome 0 (by omega)
        rwa [Nat.add_zero] at this
      obtain ⟨t, ht⟩ := Option.isSome_iff_exists.mp h0
      simp only [getParamsLoop, ht]
      rw [ih f (idx + 1) _ ?_ ?_ (by omega)]
      · simp only [storeEntries, dictFold_append]
      · intro j hj
        have := hsome (j + 1) (by omega)
        rwa [show idx + (j + 1) = idx + 1 + j by omega] at this
      · rwa [show idx + 1 + k = idx + (k + 1) by omega]

theorem getParamsLoop_alwaysToken :
    ∀ (fuel idx : Nat) (acc : List (String × String)),
      getParamsLoop storeAlwaysToken fuel idx acc = none := by
  intro fuel
  induction fuel with
  | zero => intro idx acc; rfl
  | succ f ih => intro idx acc; simp only [getParamsLoop, storeAlwaysToken]; exact ih _ _

theorem isAlnum_not_ws (c : Char) (h : isAlnum c = true) : isPyWs c = false := by
  cases hb : isPyWs c
  · rfl
  · exfalso
    simp only [isPyWs, Bool.or_eq_true, beq_iff_eq] at hb
    rcases hb with ((((h1 | h1) | h1) | h1) | h1) | h1 <;> subst h1 <;>
      exact absurd h (by decide)

theorem dropWhile_ws_of_all_alnum {l : List Char} (h : l.all isAlnum = true) :
    l.dropWhile isPyWs = l := by
  cases l with
  | nil => rfl
  | cons c cs =>
    have hc : isAlnum c = true := by
      simp only [List.all_cons, Bool.and_eq_true] at h
      exact h.1
    simp [List.dropWhile_cons, isAlnum_not_ws c hc]

theorem pyStrip_of_all_alnum (s : String) (h : s.data.all isAlnum = true) :
    pyStrip s = s := by
  unfold pyStrip
  rw [dropWhile_ws_of_all_alnum h,
      dropWhile_ws_of_all_alnum (by simpa using h), List.reverse_reverse]


theorem patternMatch_of_all_alnum (s : String) (h : s.data.all isAlnum = true)
    (h3 : 3 ≤ s.data.length) (h32 : s.data.length ≤ 32) :
    patternMatch s = true := by
  unfold patternMatch
  simp only [List.any_eq_true]
  refine ⟨s.data.length, ?_, ?_⟩
  · rw [List.mem_range'_1]
    omega
  · rw [List.take_length, List.drop_length]
    simp [h]

theorem get_tokenT_fst (store : Nat → SsmPage) (point : String → SsmPointResp)
    (fuel : Nat) (parse : String → Bool) (inv : Except String InvokeResp)
    (cid : Option String) (m : Option PyNum) (key : Option String) :
    (TDCLib.get_tokenT store point fuel parse inv cid m key).1 =
      TDCLib.get_token store point fuel parse inv cid m key := by
  unfold TDCLib.get_tokenT TDCLib.get_token
  dsimp only
  split
  · rfl
  · split <;> try rfl
    split <;> rfl

/-! ## Claim theorems -/

/-- C1: the documented range for `minimum_alive_secs` is the inclusive
[1, 3300] (the code's own error text says "between 1 and 3300"), yet the
code's check `minimum_alive_secs < 0` accepts 0: evaluating
`validate_input` at the boundary shows 1 and 3300 accepted, -1 and 3301
rejected with the range error, a non-integral value rejected with the
integer error — and 0 accepted with no error at all, contradicting the
claimed range. -/
theorem validate_input_range_boundary_eval :
    TDC.validate_input (some "test") (some (.int 0)) = [] ∧
    TDC.validate_input (some "test") (some (.int 1)) = [] ∧
    TDC.validate_input (some "test") (some (.int 3300)) = [] ∧
    TDC.validate_input (some "test") (some (.int (-1))) =
      ["Minimum alive interval must be an integer between 1 and 3300"] ∧
    TDC.validate_input (some "test") (some (.int 3301)) =
      ["Minimum alive interval must be an integer between 1 and 3300"] ∧
    TDC.validate_input (some "test") (some (.float (mkRat 1 2))) =
      ["Minimum alive interval must be an integer"] := by
  decide

/-- C10: `get_parameter_by_name` on a name ending in `'/'` skips the store
lookup and reads the unbound local `response`: it yields the
unbound-variable error, and the answer is independent of the point-lookup
store (the store is never consulted). -/
theorem get_parameter_by_name_trailing_slash (p1 p2 : String → SsmPointResp)
    (name : String) (h : pyEndswith name "/" = true) :
    TDCLib.get_parameter_by_name p1 name = .error .unboundLocal ∧
    TDCLib.get_parameter_by_name p1 name = TDCLib.get_parameter_by_name p2 name := by
  unfold TDCLib.get_parameter_by_name
  simp [h]

/-- Witness for C10 at the concrete name "/service/token-dispenser/". -/
theorem get_parameter_by_name_trailing_slash_witness :
    TDCLib.get_parameter_by_name pointNone "/service/token-dispenser/" =
      .error .unboundLocal ∧
    TDCLib.get_parameter_by_name pointNone "/service/token-dispenser/" =
      TDCLib.get_parameter_by_name pointConst "/service/token-dispenser/" :=
  get_parameter_by_name_trailing_slash pointNone pointConst
    "/service/token-dispenser/" (by decide)

/-- C6: `invoke_lambda` with an absent or empty ARN fails immediately with
the missing-target error, and with a present ARN but a payload that does
not parse as JSON fails with the invalid-payload error; in both cases the
result does not depend on the invocation oracle, i.e. no remote
invocation is attempted. -/
theorem invoke_lambda_guards (parse : String → Bool)
    (inv1 inv2 : Except String InvokeResp) (p s : String)
    (hs : s ≠ "") (hp : parse p = false) :
    TDCLib.invoke_lambda parse inv1 p none = "Error: lambda_arn not provided" ∧
    TDCLib.invoke_lambda parse inv1 p (some "") = "Error: lambda_arn not provided" ∧
    TDCLib.invoke_lambda parse inv1 p none = TDCLib.invoke_lambda parse inv2 p none ∧
    TDCLib.invoke_lambda parse inv1 p (some "") =
      TDCLib.invoke_lambda parse inv2 p (some "") ∧
    TDCLib.invoke_lambda parse inv1 p (some s) = "Error: Invalid JSON" ∧
    TDCLib.invoke_lambda parse inv1 p (some s) =
      TDCLib.invoke_lambda parse inv2 p (some s) := by
  refine ⟨rfl, rfl, rfl, rfl, ?_, ?_⟩ <;>
    simp [TDCLib.invoke_lambda, pyTruthyOptStr, pyTruthyStr, hs, hp]

/-- Witness for C6 at concrete inputs. -/
theorem invoke_lambda_guards_witness :
    TDCLib.invoke_lambda parseFalse invOk "notjson" none =
      "Error: lambda_arn not provided" ∧
    TDCLib.invoke_lambda parseFalse invOk "notjson" (some "") =
      "Error: lambda_arn not provided" ∧
    TDCLib.invoke_lambda parseFalse invOk "notjson" none =
      TDCLib.invoke_lambda parseFalse invBoom "notjson" none ∧
    TDCLib.invoke_lambda parseFalse invOk "notjson" (some "") =
      TDCLib.invoke_lambda parseFalse invBoom "notjson" (some "") ∧
    TDCLib.invoke_lambda parseFalse invOk "notjson" (some "arn") =
      "Error: Invalid JSON" ∧
    TDCLib.invoke_lambda parseFalse invOk "notjson" (some "arn") =
      TDCLib.invoke_lambda parseFalse invBoom "notjson" (some "arn") :=
  invoke_lambda_guards parseFalse invOk invBoom "notjson" "arn" (by decide) rfl

/-- C9: `invoke_lambda` always returns a string (both variants are total
functions into `String`, never propagating an exception), and for every
input and invocation outcome the result either starts with "Error:"
(every failure) or is exactly the decoded response payload, unmodified
(the success case: the transport returned ok with no function error). -/
theorem invoke_lambda_error_string_shape (parse : String → Bool)
    (inv : Except String InvokeResp) (p : String) (arn : Option String) :
    (strStartsWith (TDCLib.invoke_lambda parse inv p arn) "Error:" = true ∨
      ∃ r, inv = .ok r ∧ r.functionError = false ∧
        TDCLib.invoke_lambda parse inv p arn = r.payload) ∧
    (strStartsWith (TDC.invoke_lambda parse inv p arn) "Error:" = true ∨
      ∃ r, inv = .ok r ∧ r.functionError = false ∧
        TDC.invoke_lambda parse inv p arn = r.payload) := by
  constructor
  · unfold TDCLib.invoke_lambda
    rcases inv with e | r
    · split
      · exact Or.inl (by decide)
      · split
        · exact Or.inl (by decide)
        · exact Or.inl
            (strStartsWith_append "Error: Lambda invocation failed: " e "Error:" (by decide))
    · split
      · exact Or.inl (by decide)
      · split
        · exact Or.inl (by decide)
        · cases hf : r.functionError
          · exact Or.inr ⟨r, rfl, hf, by simp [hf]⟩
          · refine Or.inl ?_
            simp only [hf, if_true]
            exact strStartsWith_append "Error: Lambda function error: " r.payload
              "Error:" (by decide)
  · unfold TDC.invoke_lambda
    rcases inv with e | r
    · split
      · exact Or.inl (by decide)
      · split
        · exact Or.inl
            (strStartsWith_append "Error: Invalid JSON : " p "Error:" (by decide))
        · exact Or.inl
            (strStartsWith_append "Error: Lambda invocation failed: " e "Error:" (by decide))
    · split
      · exact Or.inl (by decide)
      · split
        · exact Or.inl
            (strStartsWith_append "Error: Invalid JSON : " p "Error:" (by decide))
        · cases hf : r.functionError
          · exact Or.inr ⟨r, rfl, hf, by simp [hf]⟩
          · refine Or.inl ?_
            simp only [hf, if_true]
            exact strStartsWith_append
              "Error: Lambda invocation failed: Error: Lambda function error: "
              r.payload "Error:" (by decide)

/-- C2 counterexample: with two entries under the default namespace the
failure message of `get_tds_arn` names the namespace but contains neither
"key" nor "explicit": it does not instruct the caller to supply an
explicit key, contrary to the claim. -/
theorem get_tds_arn_ambiguous_no_instruction :
    TDCLib.get_tds_arn storeTwoOnePage pointNone 1 none =
      some (.ok ("Found more than one tds arn for: /service/token-dispenser", "")) ∧
    strContains "Found more than one tds arn for: /service/token-dispenser"
      "key" = false ∧
    strContains "Found more than one tds arn for: /service/token-dispenser"
      "explicit" = false :=
  ⟨rfl, rfl, rfl⟩

/-- C2 (amended): for the default-namespace query of `get_tds_arn`, zero
accumulated entries yield the not-found failure message naming the
searched namespace, more than one entry yields the
found-more-than-one failure message naming the namespace (but with no
instruction to supply an explicit key), and exactly one entry succeeds
with exactly that entry's value. -/
theorem get_tds_arn_default_resolution (store : Nat → SsmPage)
    (point : String → SsmPointResp) (fuel : Nat) (d : List (String × String))
    (h : get_parameters_by_path store fuel = some d) :
    (d.length = 0 →
      TDCLib.get_tds_arn store point fuel none =
        some (.ok ("Not able to find tds arn for: " ++ _DEFAULT_SSM_PATH_, ""))) ∧
    (1 < d.length →
      TDCLib.get_tds_arn store point fuel none =
        some (.ok ("Found more than one tds arn for: " ++ _DEFAULT_SSM_PATH_, ""))) ∧
    (∀ k v, d = [(k, v)] →
      TDCLib.get_tds_arn store point fuel none = some (.ok ("", v))) ∧
    strContains ("Not able to find tds arn for: " ++ _DEFAULT_SSM_PATH_)
      _DEFAULT_SSM_PATH_ = true ∧
    strContains ("Found more than one tds arn for: " ++ _DEFAULT_SSM_PATH_)
      _DEFAULT_SSM_PATH_ = true := by
  refine ⟨?_, ?_, ?_, by decide, by decide⟩
  · intro h0
    unfold TDCLib.get_tds_arn
    rw [h]
    simp [h0]
  · intro h1
    unfold TDCLib.get_tds_arn
    rw [h]
    simp only []
    have hlt : ¬ d.length < 1 := by omega
    have hgt : d.length > 1 := h1
    simp [hlt, hgt]
  · intro k v hd
    unfold TDCLib.get_tds_arn
    rw [h, hd]
    simp

/-- Witness for C2 (amended): one entry resolves to exactly its value. -/
theorem get_tds_arn_default_resolution_witness :
    TDCLib.get_tds_arn storeOne pointNone 1 none = some (.ok ("", "arnA")) :=
  ((get_tds_arn_default_resolution storeOne pointNone 1
      [("/service/token-dispenser/a", "arnA")] (by decide)).2.2.1)
    "/service/token-dispenser/a" "arnA" rfl

/-- C7 counterexample: the string "abc\n" contains a character outside
[A-Za-z0-9] (its trailing newline), yet `validate_input` reports no error
at all: Python's `$` anchor matches just before a trailing newline, so
the pattern check passes, and `strip()` removes the newline so the
required-check passes too. -/
theorem validate_input_trailing_newline_accepted :
    TDC.validate_input (some "abc\n") (some (.int 300)) = [] ∧
    ("abc\n").data.all isAlnum = false := by
  decide

/-- C7 (amended): a missing, empty or whitespace-only client_id yields a
non-empty error result; a non-empty client_id rejected by the pattern
yields the fixed pattern error; an alphanumeric client_id of length 3-32
yields neither client_id error.  The one divergence from the claim is
inherited from Python's `$` semantics: a string of 3-32 alphanumerics
followed by a single trailing newline also passes the pattern check
(see the counterexample). -/
theorem validate_input_client_id_rules (cid : Option String) (m : Option PyNum) :
    (cid = none → TDC.validate_input cid m ≠ []) ∧
    (∀ s, cid = some s → pyStrip s = "" → TDC.validate_input cid m ≠ []) ∧
    (∀ s, cid = some s → s ≠ "" → patternMatch s = false →
      "client_id must be between length 3-32 with pattern [a-zA-Z0-9]\x7b3,32\x7d" ∈
        TDC.validate_input cid m) ∧
    (∀ s, cid = some s → s.data.all isAlnum = true → 3 ≤ s.data.length →
      s.data.length ≤ 32 →
      "Error: client_id is required" ∉ TDC.validate_input cid m ∧
      "client_id must be between length 3-32 with pattern [a-zA-Z0-9]\x7b3,32\x7d" ∉
        TDC.validate_input cid m) := by
  refine ⟨?_, ?_, ?_, ?_⟩
  · rintro rfl
    rcases m with _ | v
    · decide
    · rcases v with n | q
      all_goals simp only [TDC.validate_input]
      all_goals repeat' split
      all_goals first | decide | simp_all
  · rintro s rfl hstrip
    have hcond : (pyStrip s == "") = true := by simp [hstrip]
    rcases m with _ | v
    · simp only [TDC.validate_input, hcond]
      repeat' split
      all_goals first | decide | simp_all
    · rcases v with n | q
      all_goals simp only [TDC.validate_input, hcond, if_true]
      all_goals repeat' split
      all_goals first | decide | simp_all
  · rintro s rfl hne hpm
    have htr : pyTruthyStr s = true := by simp [pyTruthyStr, hne]
    rcases m with _ | v
    all_goals try rcases v with n | q
    all_goals simp [TDC.validate_input, htr, hpm]
    all_goals repeat' split
    all_goals first | decide | simp_all
  · rintro s rfl halnum h3 h32
    have hne : s ≠ "" := by
      intro hempty
      subst hempty
      exact absurd h3 (by decide)
    have hcond : (pyStrip s == "") = false := by
      rw [pyStrip_of_all_alnum s halnum]
      simpa using hne
    have hpm : patternMatch s = true := patternMatch_of_all_alnum s halnum h3 h32
    rcases m with _ | v
    all_goals try rcases v with n | q
    all_goals refine ⟨?_, ?_⟩
    all_goals simp [TDC.validate_input, hcond, hpm]
    all_goals repeat' split
    all_goals first | decide | simp_all

/-- Witness for C7 (amended) at concrete inputs: a whitespace-only
client_id is rejected, a symbol-bearing one gets the pattern error, and a
well-formed one gets no client_id error. -/
theorem validate_input_client_id_rules_witness :
    TDC.validate_input (some "   ") (some (.int 300)) ≠ [] ∧
    "client_id must be between length 3-32 with pattern [a-zA-Z0-9]\x7b3,32\x7d" ∈
      TDC.validate_input (some "bad!id") (some (.int 300)) ∧
    "Error: client_id is required" ∉
      TDC.validate_input (some "client1") (some (.int 300)) := by
  refine ⟨?_, ?_, ?_⟩
  · exact (validate_input_client_id_rules (some "   ") (some (.int 300))).2.1
      "   " rfl (by decide)
  · exact (validate_input_client_id_rules (some "bad!id") (some (.int 300))).2.2.1
      "bad!id" rfl (by decide) (by decide)
  · exact ((validate_input_client_id_rules (some "client1") (some (.int 300))).2.2.2
      "client1" rfl (by decide) (by decide) (by decide)).1

/-- C4 counterexample: in the client variant a resolution failure makes
`get_token` return an envelope with only a `body` field — the string
contains no `statusCode` field at all, contrary to the claim. -/
theorem get_token_envelope_without_statusCode :
    TDC.get_token storeEmpty pointNone 1 parseTrue invOk
        (some "client1") (some (.int 300)) none =
      some (.ok "\x7b\"body\": \"Not able to find tds arn for: /service/token-dispenser\"\x7d") ∧
    strContains
      "\x7b\"body\": \"Not able to find tds arn for: /service/token-dispenser\"\x7d"
      "statusCode" = false :=
  ⟨rfl, rfl⟩

/-- C4 (amended): in the lib variant the error envelope has the claimed
shape — `crete_err` renders a JSON object with an integer `statusCode`
(422 on validation failure, 500 on resolution failure) and a string
`body` carrying the joined message(s); in the client variant a validation
failure raises `ValueError` instead of returning an envelope, and the
resolution-failure envelope carries only a `body` (see the
counterexample). -/
theorem get_token_error_envelopes (store : Nat → SsmPage)
    (point : String → SsmPointResp) (fuel : Nat) (parse : String → Bool)
    (inv : Except String InvokeResp) (cid : Option String) (m : Option PyNum)
    (key : Option String) :
    (pyStrip (TDCLib.validate_input cid m) ≠ "" →
      TDCLib.get_token store point fuel parse inv cid m key =
        some (.ok (TDCLib.crete_err 422 (TDCLib.validate_input cid m)))) ∧
    (pyStrip (TDCLib.validate_input cid m) = "" →
      ∀ err arn, TDCLib.get_tds_arn store point fuel key = some (.ok (err, arn)) →
        err ≠ "" →
        TDCLib.get_token store point fuel parse inv cid m key =
          some (.ok (TDCLib.crete_err 500 err))) ∧
    (TDCLib.crete_err 422 "Error: client_id is required" =
      "\x7b\"statusCode\": 422, \"body\": \"Error: client_id is required\"\x7d") ∧
    (TDCLib.crete_err 500 "Not able to find tds arn for: /service/token-dispenser" =
      "\x7b\"statusCode\": 500, \"body\": \"Not able to find tds arn for: /service/token-dispenser\"\x7d") ∧
    (TDC.validate_input cid m ≠ [] →
      TDC.get_token store point fuel parse inv cid m key =
        some (.error (.valueErrorList (TDC.validate_input cid m)))) := by
  refine ⟨?_, ?_, rfl, rfl, ?_⟩
  · intro h
    have hb : (pyStrip (TDCLib.validate_input cid m) == "") = false := by simpa using h
    unfold TDCLib.get_token
    simp [hb]
  · intro h err arn hres herr
    have hb : (pyStrip (TDCLib.validate_input cid m) == "") = true := by simpa using h
    have ht : pyTruthyStr err = true := by simp [pyTruthyStr, herr]
    unfold TDCLib.get_token
    simp [hb, hres, ht]
  · intro h
    have hl : 0 < (TDC.validate_input cid m).length := List.length_pos.mpr h
    unfold TDC.get_token
    simp [hl]

/-- Witness for C4 (amended): validation failure yields the 422 envelope
and resolution failure the 500 envelope, in the lib variant. -/
theorem get_token_error_envelopes_witness :
    TDCLib.get_token storeEmpty pointNone 1 parseTrue invOk (some "")
        (some (.int 300)) none =
      some (.ok (TDCLib.crete_err 422
        (TDCLib.validate_input (some "") (some (.int 300))))) ∧
    TDCLib.get_token storeEmpty pointNone 1 parseTrue invOk (some "client1")
        (some (.int 300)) none =
      some (.ok (TDCLib.crete_err 500
        "Not able to find tds arn for: /service/token-dispenser")) := by
  constructor
  · exact (get_token_error_envelopes storeEmpty pointNone 1 parseTrue invOk
      (some "") (some (.int 300)) none).1 (by decide)
  · exact (get_token_error_envelopes storeEmpty pointNone 1 parseTrue invOk
      (some "client1") (some (.int 300)) none).2.1 (by decide)
      "Not able to find tds arn for: /service/token-dispenser" "" rfl (by decide)

/-- C3: `get_token` runs its gates in the order validate, resolve, invoke,
and the first failing gate short-circuits the rest, each gate entered at
most once: the instrumented trace is exactly `[validate]` when validation
fails, `[validate, resolve]` when resolution fails (or raises, or does
not terminate), and `[validate, resolve, invoke]` otherwise; moreover on
a validation failure the result is independent of the store, point store,
fuel, parser and invoker (resolver and invoker never called), and on a
resolution failure it is independent of the parser and invoker (invoker
never called). -/
theorem get_token_gate_order (store : Nat → SsmPage)
    (point : String → SsmPointResp) (fuel : Nat) (parse : String → Bool)
    (inv : Except String InvokeResp) (cid : Option String) (m : Option PyNum)
    (key : Option String) :
    ((TDCLib.get_tokenT store point fuel parse inv cid m key).2 =
      if pyTruthyStr (pyStrip (TDCLib.validate_input cid m)) then
        [TDCLib.Gate.validate]
      else if TDCLib.resolutionOk store point fuel key then
        [TDCLib.Gate.validate, TDCLib.Gate.resolve, TDCLib.Gate.invoke]
      else [TDCLib.Gate.validate, TDCLib.Gate.resolve]) ∧
    (pyTruthyStr (pyStrip (TDCLib.validate_input cid m)) = true →
      ∀ store2 point2 fuel2 parse2 inv2,
        TDCLib.get_tokenT store2 point2 fuel2 parse2 inv2 cid m key =
          TDCLib.get_tokenT store point fuel parse inv cid m key) ∧
    (pyTruthyStr (pyStrip (TDCLib.validate_input cid m)) = false →
      TDCLib.resolutionOk store point fuel key = false →
      ∀ parse2 inv2,
        TDCLib.get_tokenT store point fuel parse2 inv2 cid m key =
          TDCLib.get_tokenT store point fuel parse inv cid m key) := by
  refine ⟨?_, ?_, ?_⟩
  · unfold TDCLib.get_tokenT TDCLib.resolutionOk pyTruthyStr
    dsimp only
    cases hb : (pyStrip (TDCLib.validate_input cid m) == "") with
    | false => simp
    | true =>
      simp only [Bool.not_true, Bool.false_eq_true, if_false]
      cases hres : TDCLib.get_tds_arn store point fuel key with
      | none => simp
      | some x =>
        cases x with
        | error e => simp
        | ok pr =>
          obtain ⟨err, arn⟩ := pr
          cases ht : pyTruthyStr err <;> simp [pyTruthyStr] at ht <;> simp [ht]
  · intro h store2 point2 fuel2 parse2 inv2
    have hb : (pyStrip (TDCLib.validate_input cid m) == "") = false := by
      simpa [pyTruthyStr] using h
    unfold TDCLib.get_tokenT
    simp [hb]
  · intro h1 h2 parse2 inv2
    have hb : (pyStrip (TDCLib.validate_input cid m) == "") = true := by
      simpa [pyTruthyStr] using h1
    unfold TDCLib.get_tokenT
    simp only [hb, Bool.not_true, Bool.false_eq_true, if_false]
    unfold TDCLib.resolutionOk at h2
    cases hres : TDCLib.get_tds_arn store point fuel key with
    | none => simp
    | some x =>
      cases x with
      | error e => simp
      | ok pr =>
        obtain ⟨err, arn⟩ := pr
        rw [hres] at h2
        simp only [Bool.not_eq_eq_eq_not, Bool.not_false] at h2
        simp [h2]

/-- Witness for C3: a validation failure leaves the trace at `[validate]`
(with the result independent of all later collaborators), and a
resolution failure leaves the invoker uncalled. -/
theorem get_token_gate_order_witness :
    (TDCLib.get_tokenT storeEmpty pointNone 1 parseTrue invOk (some "")
        (some (.int 300)) none).2 = [TDCLib.Gate.validate] ∧
    TDCLib.get_tokenT storeTwoOnePage pointNone 7 parseTrue invOk2 (some "")
        (some (.int 300)) none =
      TDCLib.get_tokenT storeEmpty pointNone 1 parseTrue invOk (some "")
        (some (.int 300)) none ∧
    TDCLib.get_tokenT storeTwoOnePage pointNone 1 parseFalse invOk2
        (some "client1") (some (.int 300)) none =
      TDCLib.get_tokenT storeTwoOnePage pointNone 1 parseTrue invOk
        (some "client1") (some (.int 300)) none := by
  refine ⟨?_, ?_, ?_⟩
  · rw [(get_token_gate_order storeEmpty pointNone 1 parseTrue invOk (some "")
      (some (.int 300)) none).1]
    rfl
  · exact (get_token_gate_order storeEmpty pointNone 1 parseTrue invOk (some "")
      (some (.int 300)) none).2.1 (by decide) storeTwoOnePage pointNone 7
      parseTrue invOk2
  · exact (get_token_gate_order storeTwoOnePage pointNone 1 parseTrue invOk
      (some "client1") (some (.int 300)) none).2.2 (by decide) (by decide)
      parseFalse invOk2

/-- C5 counterexample: two pages of one entry each whose entries share the
same parameter name collapse in the name-keyed accumulation dict — the
total count is 1, the resolution succeeds with the later value, and no
Ambiguous failure is produced, contrary to the claim's "two pages of one
entry each therefore count as two entries". -/
theorem two_pages_same_name_not_ambiguous :
    get_parameters_by_path storeTwoPagesSameName 2 =
      some [("/service/token-dispenser/a", "arnNew")] ∧
    TDCLib.get_tds_arn storeTwoPagesSameName pointNone 2 none =
      some (.ok ("", "arnNew")) :=
  ⟨rfl, rfl⟩

/-- C5 (amended): `get_parameters_by_path` follows the continuation token
of each response until a response carries none, folding the entries of
every page into one name-keyed dict (later values overwrite equal names),
and `get_tds_arn` applies the zero/one/many check only to that complete
dict; in particular two pages of one distinctly-named entry each count as
two entries and produce the Ambiguous failure (see the witness). -/
theorem get_parameters_accumulate_before_check (store : Nat → SsmPage)
    (point : String → SsmPointResp) (fuel k : Nat)
    (hsome : ∀ j, j < k → ((store j).nextToken).isSome = true)
    (hnone : (store k).nextToken = none) (hf : k < fuel) :
    get_parameters_by_path store fuel =
      some (dictFold [] (storeEntries store 0 k)) ∧
    TDCLib.get_tds_arn store point fuel none =
      some (.ok
        (if (dictFold [] (storeEntries store 0 k)).length < 1 then
          ("Not able to find tds arn for: " ++ _DEFAULT_SSM_PATH_, "")
        else if (dictFold [] (storeEntries store 0 k)).length > 1 then
          ("Found more than one tds arn for: " ++ _DEFAULT_SSM_PATH_, "")
        else ("", ((dictFold [] (storeEntries store 0 k)).headD ("", "")).2))) := by
  have hacc : get_parameters_by_path store fuel =
      some (dictFold [] (storeEntries store 0 k)) := by
    unfold get_parameters_by_path
    exact getParamsLoop_accum store k fuel 0 []
      (by intro j hj; simpa using hsome j hj) (by simpa using hnone) hf
  refine ⟨hacc, ?_⟩
  unfold TDCLib.get_tds_arn
  rw [hacc]
  dsimp only
  split <;> simp_all
  split <;> simp_all

/-- Witness for C5 (amended): two pages of one distinctly-named entry each
accumulate to two entries and produce the Ambiguous failure. -/
theorem get_parameters_accumulate_before_check_witness :
    get_parameters_by_path storeTwoPages 2 =
      some [("/service/token-dispenser/a", "arnA"),
            ("/service/token-dispenser/b", "arnB")] ∧
    TDCLib.get_tds_arn storeTwoPages pointNone 2 none =
      some (.ok ("Found more than one tds arn for: /service/token-dispenser", "")) := by
  have h := get_parameters_accumulate_before_check storeTwoPages pointNone 2 1
    (by decide) rfl (by decide)
  exact ⟨h.1, h.2⟩

/-- Pagination of the backing store terminates once some response carries
no continuation token: if the k-th call's response has no token and the
fuel exceeds k, the loop finishes. -/
theorem getParamsLoop_stops (store : Nat → SsmPage) :
    ∀ (k fuel idx : Nat) (acc : List (String × String)),
      (store (idx + k)).nextToken = none → k < fuel →
      (getParamsLoop store fuel idx acc).isSome = true := by
  intro k
  induction k with
  | zero =>
    intro fuel idx acc hnone hf
    cases fuel with
    | zero => omega
    | succ f =>
      rw [Nat.add_zero] at hnone
      simp [getParamsLoop, hnone]
  | succ k ih =>
    intro fuel idx acc hnone hf
    cases fuel with
    | zero => omega
    | succ f =>
      cases ht : (store idx).nextToken with
      | none => simp [getParamsLoop, ht]
      | some t =>
        simp only [getParamsLoop, ht]
        exact ih f (idx + 1) _
          (by rwa [show idx + 1 + k = idx + (k + 1) by omega]) (by omega)

/-- C8 counterexample: the `while True` pagination loop has no iteration
cap — against a misbehaving store that returns a continuation token on
every call, no amount of fuel makes it finish: the code loops forever
instead of failing with a transport error. -/
theorem pagination_no_cap :
    ¬ ∃ fuel, (get_parameters_by_path storeAlwaysToken fuel).isSome = true := by
  rintro ⟨fuel, h⟩
  rw [get_parameters_by_path, getParamsLoop_alwaysToken] at h
  simp at h

/-- C8 (amended): the pagination loop terminates exactly on the stores
that eventually answer without a continuation token — it finishes
whenever some k-th response carries no token and the fuel exceeds k — and
has no iteration cap, so it never terminates on a store that always
returns a token (see the counterexample). -/
theorem get_parameters_by_path_terminates (store : Nat → SsmPage)
    (k fuel : Nat) (hnone : (store k).nextToken = none) (hf : k < fuel) :
    (get_parameters_by_path store fuel).isSome = true := by
  unfold get_parameters_by_path
  exact getParamsLoop_stops store k fuel 0 [] (by simpa using hnone) hf

/-- Witness for C8 (amended) at a concrete store whose first response
already carries no token. -/
theorem get_parameters_by_path_terminates_witness :
    (get_parameters_by_path storeOne 1).isSome = true :=
  get_parameters_by_path_terminates storeOne 0 1 rfl (by decide)
